import Mathlib

/-
Verification of the turf form component (src/kickoff-frontend/src/components/TurfFormModal.jsx).

The development shallowly embeds the validation engine, the image staging buffer,
the reference-resolution helper and the upload/save orchestration of the component.
JavaScript strings are modelled as Lean strings, file handles as records of the
fields the component reads (name, declared media type, byte size), and the two
network collaborators (batch file upload, turf create/update) as explicit
function parameters.  parseFloat is modelled exactly over rationals, keeping the
JavaScript distinction between NaN, signed Infinity and finite numbers; rounding
to binary64 is not modelled, values stay exact.
-/

namespace Kickoff

/-- A selected file, carrying the fields the component reads: the display name,
the declared media type and the byte size. -/
structure FileHandle where
  name : String
  type : String
  size : Nat
deriving DecidableEq, Repr

/-- The form fields bound to the component state (TurfFormModal.jsx lines 9-18).
All fields are strings, exactly as held by the controlled inputs. -/
structure FormFields where
  name : String
  phone : String
  location : String
  type : String
  pricePerSlot : String
  description : String
  operatingStartTime : String
  operatingEndTime : String
deriving DecidableEq, Repr

/-! ## JavaScript primitives used by validateForm -/

/-- An exact scaled decimal: the value mant / 10 ^ denExp.  This represents a
finite parseFloat result without rounding; only the sign of mant matters for
the comparisons the component performs. -/
structure ScaledDecimal where
  mant : Int
  denExp : Nat
deriving DecidableEq, Repr

/-- The rational value of a scaled decimal. -/
def ScaledDecimal.toRat (v : ScaledDecimal) : ℚ :=
  (v.mant : ℚ) / (10 : ℚ) ^ v.denExp

/-- Result of JavaScript parseFloat: NaN, a signed Infinity, or a finite number
(kept exact). -/
inductive JsFloat
  | nan
  | inf (neg : Bool)
  | num (v : ScaledDecimal)
deriving DecidableEq, Repr

/-- Characters skipped by parseFloat before the numeral (JavaScript WhiteSpace
and line terminators, restricted to the ASCII range). -/
def jsWhitespace (c : Char) : Bool :=
  c = ' ' || c = '\t' || c = '\n' || c = '\r' || c = '\x0b' || c = '\x0c'

/-- Consume a maximal run of decimal digits, returning the accumulated value,
the number of digits consumed and the remaining characters. -/
def takeDigits : List Char → Nat → Nat → Nat × Nat × List Char
  | c :: cs, acc, cnt =>
    if c.isDigit then takeDigits cs (acc * 10 + (c.toNat - 48)) (cnt + 1)
    else (acc, cnt, c :: cs)
  | [], acc, cnt => (acc, cnt, [])

/-- Parse the mantissa of a JavaScript decimal literal: digits, optionally a
decimal point with further digits; at least one digit must be present on one
side of the point. -/
def parseMantissa (cs : List Char) : Option (ScaledDecimal × List Char) :=
  match takeDigits cs 0 0 with
  | (ip, ic, rest) =>
    match rest with
    | '.' :: cs2 =>
      match takeDigits cs2 0 0 with
      | (fp, fc, rest2) =>
        if ic = 0 ∧ fc = 0 then none
        else some (⟨((ip * 10 ^ fc + fp : Nat) : Int), fc⟩, rest2)
    | _ => if ic = 0 then none else some (⟨(ip : Int), 0⟩, rest)

/-- Parse an optional exponent part (e or E, optional sign, at least one
digit); when the digits are missing the exponent is not consumed, matching the
longest-valid-prefix rule of parseFloat. -/
def parseExp (cs : List Char) : Int × List Char :=
  match cs with
  | c :: rest =>
    if c = 'e' || c = 'E' then
      match rest with
      | s :: rest2 =>
        if s = '+' || s = '-' then
          match takeDigits rest2 0 0 with
          | (ev, ec, rest3) =>
            if ec = 0 then (0, cs)
            else (if s = '-' then -(ev : Int) else (ev : Int), rest3)
        else
          match takeDigits rest 0 0 with
          | (ev, ec, rest2b) =>
            if ec = 0 then (0, cs) else ((ev : Int), rest2b)
      | [] => (0, cs)
    else (0, cs)
  | [] => (0, cs)

/-- Scale a mantissa by a signed power of ten, staying exact. -/
def applyExp (m : ScaledDecimal) (e : Int) : ScaledDecimal :=
  if 0 ≤ e then ⟨m.mant * 10 ^ e.toNat, m.denExp⟩
  else ⟨m.mant, m.denExp + (-e).toNat⟩

/-- Negation of a scaled decimal, used for a leading minus sign. -/
def ScaledDecimal.neg (m : ScaledDecimal) : ScaledDecimal :=
  ⟨-m.mant, m.denExp⟩

/-- JavaScript parseFloat: skip leading whitespace, read an optional sign, then
either Infinity or the longest valid decimal literal; anything else gives NaN. -/
def jsParseFloat (s : String) : JsFloat :=
  let cs := s.data.dropWhile jsWhitespace
  let signed : Bool × List Char :=
    match cs with
    | '-' :: r => (true, r)
    | '+' :: r => (false, r)
    | _ => (false, cs)
  if signed.2.take 8 = "Infinity".data then JsFloat.inf signed.1
  else
    match parseMantissa signed.2 with
    | none => JsFloat.nan
    | some (m, rest) =>
      let v := applyExp m (parseExp rest).1
      JsFloat.num (if signed.1 then v.neg else v)

/-- The JavaScript comparison x <= 0: false for NaN (every comparison with NaN
is false), true for -Infinity, and the sign of the mantissa for finite numbers
(the denominator is a positive power of ten; toRat_nonpos below shows the
mantissa test agrees with the order on the rational value). -/
def jsLE0 : JsFloat → Bool
  | JsFloat.nan => false
  | JsFloat.inf neg => neg
  | JsFloat.num v => decide (v.mant ≤ 0)

/-- JavaScript string comparison a < b (lexicographic on code units; all
strings used by the component are ASCII, where code units and code points
coincide). -/
def charListLt : List Char → List Char → Bool
  | [], [] => false
  | [], _ :: _ => true
  | _ :: _, [] => false
  | a :: as, b :: bs =>
    if a.toNat < b.toNat then true
    else if b.toNat < a.toNat then false
    else charListLt as bs

/-- Lexicographic order on strings, as used by the JavaScript >= on the
operating-time strings. -/
def jsStrLt (a b : String) : Bool := charListLt a.data b.data

/-- Whether the first list starts with the second, character by character. -/
def listStartsWith : List Char → List Char → Bool
  | _, [] => true
  | [], _ :: _ => false
  | a :: as, b :: bs => a = b && listStartsWith as bs

/-- JavaScript String.prototype.startsWith, implemented over the character
list so it evaluates by kernel reduction. -/
def jsStartsWith (s pre : String) : Bool := listStartsWith s.data pre.data

/-- JavaScript String.prototype.trim, removing leading and trailing whitespace
(restricted to the ASCII whitespace characters; the component never feeds
Unicode space separators to it).  Implemented over the character list so it
evaluates by kernel reduction. -/
def jsTrim (s : String) : String :=
  String.mk (((s.data.dropWhile jsWhitespace).reverse.dropWhile jsWhitespace).reverse)

/-! ## Validation engine (validateForm, lines 130-152) -/

/-- The five validation failures, in the order the code checks them. -/
inductive ValidationError
  | EmptyName
  | PhoneTooShort
  | EmptyLocation
  | InvalidPrice
  | InvalidTimeRange
deriving DecidableEq, Repr

/-- validateForm (lines 130-152): each if in turn sets an error and returns
false; reaching the end returns true.  Modelled as the first error raised, none
when the form is accepted.  The price test is the literal JavaScript condition
(not pricePerSlot) or (parseFloat pricePerSlot <= 0): an empty string is falsy,
and a NaN comparison is false, so a non-numeric non-empty price passes.  The
time test start >= end is the negation of the lexicographic strict order. -/
def validateForm (f : FormFields) : Option ValidationError :=
  if jsTrim f.name = "" then some ValidationError.EmptyName
  else if f.phone.length < 10 then some ValidationError.PhoneTooShort
  else if jsTrim f.location = "" then some ValidationError.EmptyLocation
  else if f.pricePerSlot = "" ∨ jsLE0 (jsParseFloat f.pricePerSlot) = true then
    some ValidationError.InvalidPrice
  else if jsStrLt f.operatingStartTime f.operatingEndTime = false then
    some ValidationError.InvalidTimeRange
  else none

/-- The price rule in the words of the specification (section 4.1 rule 4):
pricePerSlot present and parsing to a number strictly greater than 0.  Stated
separately from the code so the two can be compared. -/
def specPricePositive (s : String) : Bool :=
  s ≠ "" &&
    match jsParseFloat s with
    | JsFloat.num v => decide (0 < v.mant)
    | JsFloat.inf neg => !neg
    | JsFloat.nan => false

/-- A pass/fail rule paired with the error it raises on failure. -/
def ruleList : List ((FormFields → Bool) × ValidationError) :=
  [ (fun f => !(jsTrim f.name = ""), ValidationError.EmptyName),
    (fun f => !(f.phone.length < 10 : Bool), ValidationError.PhoneTooShort),
    (fun f => !(jsTrim f.location = ""), ValidationError.EmptyLocation),
    (fun f => !((f.pricePerSlot = "" : Bool) || jsLE0 (jsParseFloat f.pricePerSlot)),
      ValidationError.InvalidPrice),
    (fun f => jsStrLt f.operatingStartTime f.operatingEndTime, ValidationError.InvalidTimeRange) ]

/-- Run rules left to right, returning the error of the first failing rule. -/
def firstFailing : List ((FormFields → Bool) × ValidationError) → FormFields →
    Option ValidationError
  | [], _ => none
  | (r, e) :: rest, f => if r f then firstFailing rest f else some e

/-! ## Image staging buffer (handleImageSelect, lines 60-88) -/

/-- A warning emitted while staging a selection: a per-file rejection of a
non-image media type, or the single aggregate rejection of a batch containing
oversized files. -/
inductive SelectWarning
  | notImage (name : String)
  | oversized (names : List String)
deriving DecidableEq, Repr

/-- Whether a warning is the aggregate oversize rejection. -/
def SelectWarning.isOversize : SelectWarning → Bool
  | SelectWarning.oversized _ => true
  | SelectWarning.notImage _ => false

/-- The media-type filter (line 64): the declared type starts with image/. -/
def isImageType (t : String) : Bool := jsStartsWith t "image/"

/-- validFiles (lines 63-69): the candidates whose declared media type passes
the image filter. -/
def validFilesOf (files : List FileHandle) : List FileHandle :=
  files.filter (fun f => isImageType f.type)

/-- The per-file warnings emitted, in selection order, for candidates whose
media type is not an image type (line 66). -/
def rejectedTypeWarnings (files : List FileHandle) : List SelectWarning :=
  (files.filter (fun f => !(isImageType f.type))).map
    (fun f => SelectWarning.notImage f.name)

/-- oversizedFiles (line 71): the type-accepted files strictly larger than
10 * 1024 * 1024 bytes. -/
def oversizedOf (files : List FileHandle) : List FileHandle :=
  (validFilesOf files).filter (fun f => f.size > 10 * 1024 * 1024)

/-- handleImageSelect (lines 60-88) acting on the pending list: when any
type-accepted file is oversized, a single aggregate warning naming all
oversized files is emitted and the function returns before appending anything
(lines 72-75); otherwise the accepted files are appended in selection order
(line 77).  The per-file type warnings (line 66) are emitted in both cases,
before the oversize check.  The asynchronous preview generation (lines 79-85)
touches only the preview list and is not modelled. -/
def handleImageSelect (imageFiles files : List FileHandle) :
    List FileHandle × List SelectWarning :=
  if (oversizedOf files).length > 0 then
    (imageFiles,
      rejectedTypeWarnings files ++
        [SelectWarning.oversized ((oversizedOf files).map FileHandle.name)])
  else
    (imageFiles ++ validFilesOf files, rejectedTypeWarnings files)

/-! ## Reference resolution (getImageUrl, lines 192-204) -/

/-- The backend host hardwired into getImageUrl (lines 200 and 203).  The
specification calls this the configured host: it is the same constant that
appears as the fallback of the API_URL configuration on line 31. -/
def backendHost : String := "http://localhost:8080"

/-- getImageUrl (lines 192-204): a missing or empty reference yields null;
absolute http(s) URLs pass through; references starting with /api are prefixed
with the backend host; anything else is treated as a bare file identifier under
the files-serving path. -/
def getImageUrl (imageUrl : Option String) : Option String :=
  match imageUrl with
  | none => none
  | some u =>
    if u = "" then none
    else if jsStartsWith u "http://" || jsStartsWith u "https://" then some u
    else if jsStartsWith u "/api" then some (backendHost ++ u)
    else some (backendHost ++ "/api/files/" ++ u)

/-! ## Upload orchestrator (uploadImages lines 99-128, handleSubmit lines 154-190) -/

/-- One entry of the upload collaborator response (line 120 reads the fileUrl
field of each entry). -/
structure UploadedFile where
  fileUrl : String
deriving DecidableEq, Repr

/-- The payload sent to the turf collaborator: the form fields, the merged
image URL list, and the owner identity on create only (lines 169-180). -/
structure TurfPayload where
  fields : FormFields
  ownerId : Option String
  imageUrls : List String
deriving DecidableEq, Repr

/-- Whether the submission updates an existing turf (carrying its id) or
creates a new one (carrying the current user identity). -/
inductive Mode
  | create (ownerId : String)
  | update (id : String)
deriving DecidableEq, Repr

/-- Observable calls to the two network collaborators, in order. -/
inductive SubmitEvent
  | uploadCalled (files : List FileHandle)
  | saveCalled (payload : TurfPayload)
deriving DecidableEq, Repr

/-- The outcome surfaced by handleSubmit: a validation error (submission never
started), the upload failure message, the save failure message, or success. -/
inductive SubmitOutcome
  | validationFailed (e : ValidationError)
  | uploadFailed (msg : String)
  | saveFailed (msg : String)
  | success
deriving DecidableEq, Repr

/-- uploadImages (lines 99-128): with no pending files it returns the empty
list without touching the network (lines 100-102); otherwise it posts the
whole batch once and maps the response to its fileUrl fields (line 120), or
fails with the message built on line 124 around the cause reported by the
collaborator.  The second component records the collaborator calls made. -/
def uploadImages (imageFiles : List FileHandle)
    (up : List FileHandle → Except String (List UploadedFile)) :
    Except String (List String) × List SubmitEvent :=
  if imageFiles.length = 0 then (Except.ok [], [])
  else
    match up imageFiles with
    | Except.ok resp =>
      (Except.ok (resp.map UploadedFile.fileUrl), [SubmitEvent.uploadCalled imageFiles])
    | Except.error cause =>
      (Except.error ("Failed to upload images: " ++ cause),
        [SubmitEvent.uploadCalled imageFiles])

/-- The payload built on lines 169-180: the owner identity is attached on
create only. -/
def mkPayload (fd : FormFields) (mode : Mode) (urls : List String) : TurfPayload :=
  match mode with
  | Mode.create owner => { fields := fd, ownerId := some owner, imageUrls := urls }
  | Mode.update _ => { fields := fd, ownerId := none, imageUrls := urls }

/-- Dispatch of the create or update call (lines 175-181) and translation of
its result into the surfaced outcome (lines 184-186). -/
def saveStep (sv : TurfPayload → Except String Unit) (payload : TurfPayload) :
    SubmitOutcome :=
  match sv payload with
  | Except.ok _ => SubmitOutcome.success
  | Except.error msg => SubmitOutcome.saveFailed msg

/-- handleSubmit (lines 154-190): validation gates everything; then the
pending files are uploaded, the returned URLs are appended after the retained
existing references (line 167), the payload is built and the create or update
collaborator is called.  A throw from uploadImages is caught before the save
call is ever reached, so an upload failure leaves the trace without any
saveCalled event. -/
def handleSubmit (fd : FormFields) (existingImages : List String)
    (imageFiles : List FileHandle) (mode : Mode)
    (up : List FileHandle → Except String (List UploadedFile))
    (sv : TurfPayload → Except String Unit) :
    SubmitOutcome × List SubmitEvent :=
  match validateForm fd with
  | some e => (SubmitOutcome.validationFailed e, [])
  | none =>
    match uploadImages imageFiles up with
    | (Except.error msg, ev) => (SubmitOutcome.uploadFailed msg, ev)
    | (Except.ok newImageUrls, ev) =>
      let allImageUrls := existingImages ++ newImageUrls
      let payload := mkPayload fd mode allImageUrls
      (saveStep sv payload, ev ++ [SubmitEvent.saveCalled payload])

/-! ## Concrete fixtures used by the witness and counterexample theorems -/

/-- A form valuation passing all five validation rules. -/
def goodFields : FormFields :=
  { name := "Champions Ground", phone := "9876543210", location := "Coimbatore",
    type := "FOOTBALL", pricePerSlot := "500", description := "",
    operatingStartTime := "06:00", operatingEndTime := "22:00" }

/-- Valid fields except for a non-numeric price and an inverted time range. -/
def wrongOrderFields : FormFields :=
  { goodFields with
    pricePerSlot := "abc"
    operatingStartTime := "23:00"
    operatingEndTime := "06:00" }

/-- Valid fields except for a non-numeric price. -/
def nanPriceFields : FormFields :=
  { goodFields with pricePerSlot := "abc" }

/-- Valid fields except for a zero price. -/
def zeroPriceFields : FormFields :=
  { goodFields with pricePerSlot := "0" }

/-- Valid fields except for a nine-character phone value made of dashes. -/
def shortPhoneFields : FormFields :=
  { goodFields with phone := "---------" }

/-- A small image file. -/
def imgA : FileHandle := { name := "a.png", type := "image/png", size := 100 }

/-- Another small image file. -/
def imgB : FileHandle := { name := "b.jpg", type := "image/jpeg", size := 200 }

/-- A file whose declared media type is not an image type. -/
def txtC : FileHandle := { name := "c.txt", type := "text/plain", size := 50 }

/-- An image file one byte over the 10 MiB limit. -/
def bigD : FileHandle := { name := "d.png", type := "image/png", size := 10485761 }

/-- An image file of exactly 10 MiB. -/
def exactE : FileHandle := { name := "e.png", type := "image/png", size := 10485760 }

/-! ## Supporting lemmas -/

/-- The sign test used by jsLE0 agrees with the order on the rational value of
a scaled decimal: the denominator is a positive power of ten. -/
theorem ScaledDecimal.toRat_nonpos (v : ScaledDecimal) : v.toRat ≤ 0 ↔ v.mant ≤ 0 := by
  have hp : (0 : ℚ) < (10 : ℚ) ^ v.denExp := by positivity
  unfold ScaledDecimal.toRat
  rw [div_nonpos_iff]
  constructor
  · rintro (⟨h1, h2⟩ | ⟨h1, h2⟩)
    · exact absurd hp (not_lt.mpr h2)
    · exact_mod_cast h1
  · intro h
    exact Or.inr ⟨by exact_mod_cast h, le_of_lt hp⟩

/-- Running a rule list on a form that passes every rule yields no error. -/
theorem firstFailing_eq_none (rs : List ((FormFields → Bool) × ValidationError))
    (f : FormFields) (h : ∀ re ∈ rs, re.1 f = true) : firstFailing rs f = none := by
  induction rs with
  | nil => rfl
  | cons a rest ih =>
    obtain ⟨r, e⟩ := a
    simp only [firstFailing]
    rw [if_pos (h ⟨r, e⟩ (List.mem_cons_self _ _))]
    exact ih (fun re hre => h re (List.mem_cons_of_mem _ hre))

/-- The per-file media-type warnings never contain the aggregate oversize
warning. -/
theorem rejectedTypeWarnings_no_oversize (files : List FileHandle) :
    (rejectedTypeWarnings files).filter SelectWarning.isOversize = [] := by
  unfold rejectedTypeWarnings
  induction files.filter (fun f => !(isImageType f.type)) with
  | nil => rfl
  | cons a rest ih => simp [SelectWarning.isOversize, ih]

/-! ## Claim theorems -/

/-- C3, counterexample: the validation rules as the specification words them
(rule 4 being a price that parses to a positive number) do not describe the
code.  On a form whose first three rules pass, whose price is the non-numeric
string abc, and whose time range is inverted, the first failing rule in the
words of the specification is the price rule, yet validateForm reports the
time-range error: the NaN produced by parseFloat compares false against 0 and
slips past the price check. -/
theorem validate_rule_order_spec_counterexample :
    jsTrim wrongOrderFields.name ≠ "" ∧
    ¬ wrongOrderFields.phone.length < 10 ∧
    jsTrim wrongOrderFields.location ≠ "" ∧
    specPricePositive wrongOrderFields.pricePerSlot = false ∧
    validateForm wrongOrderFields = some ValidationError.InvalidTimeRange ∧
    validateForm wrongOrderFields ≠ some ValidationError.InvalidPrice := by
  decide

/-- C3, amended: validateForm checks five rules in order (non-blank trimmed
name; phone length at least 10; non-blank trimmed location; price non-empty
and not comparing less-or-equal to zero under JavaScript semantics, so a
non-numeric price passes; start time lexicographically before end time) and
returns the error of the first failing rule only; when all five rules hold it
succeeds. -/
theorem validate_first_failing_rule (f : FormFields) :
    validateForm f = firstFailing ruleList f ∧
    ((∀ re ∈ ruleList, re.1 f = true) → validateForm f = none) := by
  have hmain : validateForm f = firstFailing ruleList f := by
    simp only [validateForm, ruleList, firstFailing]
    by_cases h1 : jsTrim f.name = ""
    · simp [h1]
    by_cases h2 : f.phone.length < 10
    · simp [h1, h2]
    by_cases h3 : jsTrim f.location = ""
    · simp [h1, h2, h3]
    by_cases h4 : f.pricePerSlot = "" ∨ jsLE0 (jsParseFloat f.pricePerSlot) = true
    · rcases h4 with h4 | h4 <;> simp [h1, h2, h3, h4]
    push_neg at h4
    obtain ⟨h4a, h4b⟩ := h4
    replace h4b : jsLE0 (jsParseFloat f.pricePerSlot) = false := Bool.eq_false_iff.mpr h4b
    by_cases h5 : jsStrLt f.operatingStartTime f.operatingEndTime = false
    · simp [h1, h2, h3, h4a, h4b, h5]
    · rw [Bool.not_eq_false] at h5
      simp [h1, h2, h3, h4a, h4b, h5]
  exact ⟨hmain, fun hall => hmain.trans (firstFailing_eq_none ruleList f hall)⟩

/-- C3, witness: on a fully valid form every rule of the list passes and
validateForm succeeds. -/
theorem validate_first_failing_rule_witness : validateForm goodFields = none :=
  (validate_first_failing_rule goodFields).2 (by decide)

/-- C4, counterexample: with the first three rules passing, the non-empty
price string abc does not parse to any number (parseFloat yields NaN), yet
validateForm accepts the form instead of failing with the price error: the
comparison NaN less-or-equal 0 is false in JavaScript. -/
theorem price_rule_nan_counterexample :
    jsTrim nanPriceFields.name ≠ "" ∧
    ¬ nanPriceFields.phone.length < 10 ∧
    jsTrim nanPriceFields.location ≠ "" ∧
    nanPriceFields.pricePerSlot ≠ "" ∧
    jsParseFloat nanPriceFields.pricePerSlot = JsFloat.nan ∧
    validateForm nanPriceFields = none := by
  decide

/-- C4, amended: for every form whose first three rules pass, validateForm
fails with the price error exactly when the price string is empty or
parseFloat applied to it yields a value comparing less-or-equal to zero (a
non-positive finite number or negative Infinity); a non-empty string yielding
NaN passes the check. -/
theorem price_rule_characterization (f : FormFields)
    (hn : jsTrim f.name ≠ "") (hp : ¬ f.phone.length < 10)
    (hl : jsTrim f.location ≠ "") :
    validateForm f = some ValidationError.InvalidPrice ↔
      (f.pricePerSlot = "" ∨ jsLE0 (jsParseFloat f.pricePerSlot) = true) := by
  unfold validateForm
  rw [if_neg hn, if_neg hp, if_neg hl]
  by_cases hq : f.pricePerSlot = "" ∨ jsLE0 (jsParseFloat f.pricePerSlot) = true
  · simp [hq]
  · rw [if_neg hq]
    simp only [hq, iff_false]
    split_ifs <;> simp

/-- C4, witness: a zero price is rejected with the price error. -/
theorem price_rule_characterization_witness :
    validateForm zeroPriceFields = some ValidationError.InvalidPrice :=
  (price_rule_characterization zeroPriceFields (by decide) (by decide)
    (by decide)).mpr (by decide)

/-- C8: once the name rule passes, validateForm fails with the phone error
exactly when the phone string has fewer than 10 characters; the characters can
be of any kind, only the length is inspected. -/
theorem phone_rule_any_characters (f : FormFields) (hn : jsTrim f.name ≠ "") :
    validateForm f = some ValidationError.PhoneTooShort ↔ f.phone.length < 10 := by
  unfold validateForm
  rw [if_neg hn]
  by_cases hp : f.phone.length < 10
  · simp [hp]
  · rw [if_neg hp]
    simp only [hp, iff_false]
    split_ifs <;> simp

/-- C8, witness: a nine-character phone value containing no digit at all is
rejected as too short, confirming that characters of any kind are counted. -/
theorem phone_rule_any_characters_witness :
    validateForm shortPhoneFields = some ValidationError.PhoneTooShort :=
  (phone_rule_any_characters shortPhoneFields (by decide)).mpr (by decide)

/-- C5: when at least one type-accepted file of a batch exceeds 10 MiB, no
file from the batch is appended to the pending list, and the warnings end with
a single aggregate oversize warning naming exactly the oversized files. -/
theorem oversize_batch_rejected (imageFiles files : List FileHandle)
    (hover : oversizedOf files ≠ []) :
    handleImageSelect imageFiles files =
      (imageFiles,
        rejectedTypeWarnings files ++
          [SelectWarning.oversized ((oversizedOf files).map FileHandle.name)]) ∧
    (handleImageSelect imageFiles files).2.filter SelectWarning.isOversize =
      [SelectWarning.oversized ((oversizedOf files).map FileHandle.name)] := by
  have hlen : (oversizedOf files).length > 0 := List.length_pos.mpr hover
  have h1 : handleImageSelect imageFiles files =
      (imageFiles,
        rejectedTypeWarnings files ++
          [SelectWarning.oversized ((oversizedOf files).map FileHandle.name)]) := by
    unfold handleImageSelect
    rw [if_pos hlen]
  refine ⟨h1, ?_⟩
  rw [h1]
  simp [List.filter_append, rejectedTypeWarnings_no_oversize, SelectWarning.isOversize]

/-- C5, witness: a batch holding an 10 MiB + 1 image, a small image and a text
file leaves the pending list unchanged and yields the aggregate warning naming
the oversized file. -/
theorem oversize_batch_rejected_witness :
    handleImageSelect [imgA] [bigD, imgB, txtC] =
      ([imgA],
        rejectedTypeWarnings [bigD, imgB, txtC] ++
          [SelectWarning.oversized ((oversizedOf [bigD, imgB, txtC]).map FileHandle.name)]) ∧
    (handleImageSelect [imgA] [bigD, imgB, txtC]).2.filter SelectWarning.isOversize =
      [SelectWarning.oversized ((oversizedOf [bigD, imgB, txtC]).map FileHandle.name)] :=
  oversize_batch_rejected [imgA] [bigD, imgB, txtC] (by decide)

/-- C6: for a batch in which every type-accepted file is within the size
limit, each non-image candidate is rejected with its own warning (in selection
order) and the accepted files are appended to the pending list in selection
order, so the pending count grows by exactly the number of accepted files. -/
theorem select_appends_accepted (imageFiles files : List FileHandle)
    (hsz : ∀ f ∈ validFilesOf files, f.size ≤ 10 * 1024 * 1024) :
    handleImageSelect imageFiles files =
      (imageFiles ++ validFilesOf files, rejectedTypeWarnings files) ∧
    (handleImageSelect imageFiles files).1.length =
      imageFiles.length + (validFilesOf files).length := by
  have hov : oversizedOf files = [] := by
    unfold oversizedOf
    rw [List.filter_eq_nil_iff]
    intro f hf
    simp only [decide_eq_true_eq, not_lt, gt_iff_lt]
    exact hsz f hf
  have h1 : handleImageSelect imageFiles files =
      (imageFiles ++ validFilesOf files, rejectedTypeWarnings files) := by
    unfold handleImageSelect
    rw [hov]
    simp
  exact ⟨h1, by rw [h1]; simp⟩

/-- C6, witness: in a batch of two in-size images around one text file, the
text file alone is warned about, the two images are appended in order, and the
pending count grows by the batch size minus one. -/
theorem select_appends_accepted_witness :
    handleImageSelect [] [imgA, txtC, imgB] =
      ([] ++ validFilesOf [imgA, txtC, imgB], rejectedTypeWarnings [imgA, txtC, imgB]) ∧
    (handleImageSelect [] [imgA, txtC, imgB]).1.length =
      ([] : List FileHandle).length + (validFilesOf [imgA, txtC, imgB]).length :=
  select_appends_accepted [] [imgA, txtC, imgB] (by decide)

/-- C9: a selected image file of exactly 10485760 bytes is not caught by the
strict greater-than oversize check and is appended to the pending list. -/
theorem exact_limit_file_accepted (imageFiles : List FileHandle) (f : FileHandle)
    (ht : isImageType f.type = true) (hs : f.size = 10485760) :
    decide (f.size > 10 * 1024 * 1024) = false ∧
    handleImageSelect imageFiles [f] = (imageFiles ++ [f], []) := by
  constructor
  · rw [hs]
    decide
  · have hov : oversizedOf [f] = [] := by
      unfold oversizedOf validFilesOf
      simp [ht, hs]
    unfold handleImageSelect
    rw [hov]
    simp [validFilesOf, rejectedTypeWarnings, ht]

/-- C9, witness: the exactly-10 MiB image file is accepted and appended. -/
theorem exact_limit_file_accepted_witness :
    decide (exactE.size > 10 * 1024 * 1024) = false ∧
    handleImageSelect [] [exactE] = ([] ++ [exactE], []) :=
  exact_limit_file_accepted [] exactE (by decide) (by decide)

/-- C7: reference resolution passes absolute http(s) URLs through unchanged,
prefixes the backend host onto references already rooted at the /api path, and
places every other non-empty reference under the files-serving path of the
backend host; in particular the two sample references both resolve to the same
rewritten URL. -/
theorem image_reference_resolution (s : String) :
    ((jsStartsWith s "http://" = true ∨ jsStartsWith s "https://" = true) →
      getImageUrl (some s) = some s) ∧
    (jsStartsWith s "http://" = false → jsStartsWith s "https://" = false →
      jsStartsWith s "/api" = true →
      getImageUrl (some s) = some (backendHost ++ s)) ∧
    (s ≠ "" → jsStartsWith s "http://" = false → jsStartsWith s "https://" = false →
      jsStartsWith s "/api" = false →
      getImageUrl (some s) = some (backendHost ++ "/api/files/" ++ s)) ∧
    getImageUrl (some "/api/files/z.png") = some "http://localhost:8080/api/files/z.png" ∧
    getImageUrl (some "z.png") = some "http://localhost:8080/api/files/z.png" := by
  refine ⟨?_, ?_, ?_, by decide, by decide⟩
  · rintro (h | h)
    · have hne : s ≠ "" := by
        rintro rfl
        exact absurd h (by decide)
      simp [getImageUrl, hne, h]
    · have hne : s ≠ "" := by
        rintro rfl
        exact absurd h (by decide)
      simp [getImageUrl, hne, h]
  · intro h1 h2 h3
    have hne : s ≠ "" := by
      rintro rfl
      exact absurd h3 (by decide)
    simp [getImageUrl, hne, h1, h2, h3]
  · intro hne h1 h2 h3
    simp [getImageUrl, hne, h1, h2, h3]

/-- C7, witness: an absolute URL passes through, and a bare file identifier is
rewritten under the files-serving path of the backend host. -/
theorem image_reference_resolution_witness :
    getImageUrl (some "http://x/y.png") = some "http://x/y.png" ∧
    getImageUrl (some "z.png") = some ("http://localhost:8080" ++ "/api/files/" ++ "z.png") :=
  ⟨(image_reference_resolution "http://x/y.png").1 (Or.inl (by decide)),
   (image_reference_resolution "z.png").2.2.1 (by decide) (by decide) (by decide) (by decide)⟩

/-- C10: a missing reference (null) and an empty reference string both resolve
to the no-reference result instead of a rewritten URL. -/
theorem missing_reference_resolves_to_none :
    getImageUrl none = none ∧ getImageUrl (some "") = none := by
  decide

/-- C1: when validation passes, pending files exist and the batch upload
collaborator reports a failure, handleSubmit surfaces the upload failure
carrying the reported cause, and the save collaborator is never invoked: the
event trace holds the single upload call and no save call, so no turf record
is created or updated. -/
theorem upload_failure_aborts_submit (fd : FormFields) (existingImages : List String)
    (imageFiles : List FileHandle) (mode : Mode) (cause : String)
    (up : List FileHandle → Except String (List UploadedFile))
    (sv : TurfPayload → Except String Unit)
    (hv : validateForm fd = none) (hne : imageFiles ≠ [])
    (hf : up imageFiles = Except.error cause) :
    handleSubmit fd existingImages imageFiles mode up sv =
      (SubmitOutcome.uploadFailed ("Failed to upload images: " ++ cause),
        [SubmitEvent.uploadCalled imageFiles]) ∧
    ∀ p, SubmitEvent.saveCalled p ∉ (handleSubmit fd existingImages imageFiles mode up sv).2 := by
  have hlen : ¬ imageFiles.length = 0 := by
    simpa [List.length_eq_zero] using hne
  have h1 : handleSubmit fd existingImages imageFiles mode up sv =
      (SubmitOutcome.uploadFailed ("Failed to upload images: " ++ cause),
        [SubmitEvent.uploadCalled imageFiles]) := by
    simp [handleSubmit, uploadImages, hv, hf, hlen]
  refine ⟨h1, fun p => ?_⟩
  rw [h1]
  simp

/-- C1, witness: submitting a valid form with one pending file against an
upload collaborator failing with cause boom aborts with the upload failure and
records no save call. -/
theorem upload_failure_aborts_submit_witness :
    handleSubmit goodFields ["a.png"] [imgA] (Mode.update "t7")
        (fun _ => Except.error "boom") (fun _ => Except.ok ()) =
      (SubmitOutcome.uploadFailed ("Failed to upload images: " ++ "boom"),
        [SubmitEvent.uploadCalled [imgA]]) ∧
    ∀ p, SubmitEvent.saveCalled p ∉
      (handleSubmit goodFields ["a.png"] [imgA] (Mode.update "t7")
        (fun _ => Except.error "boom") (fun _ => Except.ok ())).2 :=
  upload_failure_aborts_submit goodFields ["a.png"] [imgA] (Mode.update "t7") "boom"
    (fun _ => Except.error "boom") (fun _ => Except.ok ())
    (by decide) (by decide) rfl

/-- C2: when validation passes, the payload sent to the save collaborator
carries exactly the retained references in their current order followed by the
uploaded references in upload order; with no pending files the upload
collaborator is never invoked (the trace holds only the save call) and the
payload carries exactly the retained references. -/
theorem submit_payload_image_urls (fd : FormFields) (existingImages : List String)
    (imageFiles : List FileHandle) (mode : Mode)
    (up : List FileHandle → Except String (List UploadedFile))
    (sv : TurfPayload → Except String Unit)
    (hv : validateForm fd = none) :
    (∀ resp, imageFiles ≠ [] → up imageFiles = Except.ok resp →
      handleSubmit fd existingImages imageFiles mode up sv =
        (saveStep sv (mkPayload fd mode (existingImages ++ resp.map UploadedFile.fileUrl)),
          [SubmitEvent.uploadCalled imageFiles,
            SubmitEvent.saveCalled
              (mkPayload fd mode (existingImages ++ resp.map UploadedFile.fileUrl))])) ∧
    (imageFiles = [] →
      handleSubmit fd existingImages imageFiles mode up sv =
        (saveStep sv (mkPayload fd mode existingImages),
          [SubmitEvent.saveCalled (mkPayload fd mode existingImages)])) := by
  constructor
  · intro resp hne hok
    have hlen : ¬ imageFiles.length = 0 := by
      simpa [List.length_eq_zero] using hne
    simp [handleSubmit, uploadImages, hv, hok, hlen]
  · intro hnil
    subst hnil
    simp [handleSubmit, uploadImages, hv]

/-- C2, witness: submitting a valid form with zero pending files and two
retained references yields a payload carrying exactly those two references in
order, and the trace shows the upload collaborator was never invoked. -/
theorem submit_payload_image_urls_witness :
    handleSubmit goodFields ["a.png", "b.png"] [] (Mode.create "u1")
        (fun _ => Except.error "never") (fun _ => Except.ok ()) =
      (saveStep (fun _ => Except.ok ())
          (mkPayload goodFields (Mode.create "u1") ["a.png", "b.png"]),
        [SubmitEvent.saveCalled (mkPayload goodFields (Mode.create "u1") ["a.png", "b.png"])]) :=
  (submit_payload_image_urls goodFields ["a.png", "b.png"] [] (Mode.create "u1")
    (fun _ => Except.error "never") (fun _ => Except.ok ()) (by decide)).2 rfl

end Kickoff
